import Mathlib

/-!
Verification of the Krystal web UI test suite.

This file gives a shallow embedding of the test-automation code:
the mock wallet provider (`request`, `on`, `removeListener`, `emit`),
the page-object operations (`VaultListPage.sortByAPR`,
`VaultListPage.verifyBasicUIElements`, the `VaultDetailPage`
verification operations), the screenshot helper, the APR-sorting test
segment, and the duplicated configuration constants.  Operations that
drive a browser page are embedded as pure functions from a page model
to a trace of page interactions; operations that can raise an error are
embedded in `Except`.
-/

/-- The hard-coded test wallet address (setupWallet.ts). -/
def TEST_WALLET_ADDRESS : String := "0x1822946a4f1a625044d93a468db6db756d4f89ff"

/-! ## Configuration constants (playwright.config.ts and its duplicate,
constants.ts and its duplicate) -/

/-- The tunables of a Playwright config that the duplicated configs assign. -/
structure PlaywrightConfig where
  timeout : Nat
  retries : Nat
  headless : Bool
  viewportWidth : Nat
  viewportHeight : Nat
deriving Repr, DecidableEq

/-- playwright.config.ts (first version). -/
def playwrightConfigMain : PlaywrightConfig :=
  { timeout := 60000, retries := 2, headless := false
    viewportWidth := 1280, viewportHeight := 720 }

/-- The duplicate Playwright config (src/unnamed/part_000). -/
def playwrightConfigDup : PlaywrightConfig :=
  { timeout := 90000, retries := 1, headless := false
    viewportWidth := 1280, viewportHeight := 720 }

/-- The named timeout tunables of a constants file. -/
structure TimeoutConstants where
  PAGE_LOAD : Nat
  ELEMENT_APPEAR : Nat
  ANIMATION : Nat
  RENDER : Nat
  WALLET_CONNECTION : Nat
deriving Repr, DecidableEq

/-- TIMEOUTS of src/src/tests/utils/constants.ts. -/
def TIMEOUTS_main : TimeoutConstants :=
  { PAGE_LOAD := 10000, ELEMENT_APPEAR := 10000, ANIMATION := 5000
    RENDER := 10000, WALLET_CONNECTION := 10000 }

/-- TIMEOUTS of the duplicate constants file (src/unnamed/part_008). -/
def TIMEOUTS_dup : TimeoutConstants :=
  { PAGE_LOAD := 15000, ELEMENT_APPEAR := 10000, ANIMATION := 1000
    RENDER := 2000, WALLET_CONNECTION := 12000 }

/-! ## Selector catalogs (constants.ts) -/

/-- SELECTORS.APR_HEADER of constants.ts. -/
def SELECTORS_APR_HEADER : List String :=
  [ "th:has-text(\"APR\")"
  , "[role=\"columnheader\"]:has-text(\"APR\")"
  , "div.column-header:has-text(\"APR\")"
  , "button:has-text(\"APR\")"
  , "text=APR" ]

/-- SELECTORS.WALLET_ADDRESS of constants.ts. -/
def SELECTORS_WALLET_ADDRESS : List String :=
  [ "[data-testid=\"wallet-address\"]"
  , "[class*=\"wallet-address\"]"
  , "button:has-text(\"0x1822...89ff\")"
  , "button:has-text(\"...89ff\")"
  , "span:has-text(\"0x1822...89ff\")"
  , "button:has-text(\"1822\")"
  , "button:has-text(\"89ff\")"
  , "header button:not(:has-text(\"Connect\"))"
  , "nav button:not(:has-text(\"Connect\"))" ]

/-! ## JavaScript string primitives used by the wallet helpers -/

/-- JavaScript `String.prototype.slice(begin, end)`: negative indices count
from the end of the string, and the result is the characters from the
normalized begin (inclusive) to the normalized end (exclusive). -/
def jsSlice (s : String) (b e : Int) : String :=
  let n : Int := s.length
  let nb : Int := if b < 0 then max (n + b) 0 else min b n
  let ne : Int := if e < 0 then max (n + e) 0 else min e n
  String.mk ((s.data.take ne.toNat).drop nb.toNat)

/-- JavaScript `String.prototype.slice(begin)` with the end defaulted to the
string length. -/
def jsSliceFrom (s : String) (b : Int) : String :=
  jsSlice s b s.length

/-- The shortened wallet address the wallet helpers compute:
`TEST_WALLET_ADDRESS.slice(0, 6) + "..." + TEST_WALLET_ADDRESS.slice(-4)`
(setupWallet.ts `isWalletConnected` / vaults.spec.ts line 83). -/
def shortenedAddress : String :=
  jsSlice TEST_WALLET_ADDRESS 0 6 ++ "..." ++ jsSliceFrom TEST_WALLET_ADDRESS (-4)

/-- The shortened-address text hard-coded inside SELECTORS.WALLET_ADDRESS. -/
def hardCodedShortAddress : String := "0x1822...89ff"

/-- Whether `sub` occurs as a contiguous sub-list of `l`. -/
def charsContainSub : List Char → List Char → Bool
  | [], sub => sub.isEmpty
  | a :: t, sub => List.isPrefixOf sub (a :: t) || charsContainSub t sub

/-- Whether `sub` occurs as a substring of `s`. -/
def strContainsSub (s sub : String) : Bool :=
  charsContainSub s.data sub.data

/-! ## Mock wallet provider (setupWallet.ts)

The file holds two shapes of provider.  The stateless one
(setupWallet.ts lines 16-28, repeated at lines 79-91) answers only the
two account methods.  The stateful one (setupWallet.ts lines 329-383)
also answers `eth_chainId`, mutates `selectedAddress`, and keeps a list
of `accountsChanged` callbacks. -/

/-- A value an RPC `request` call can resolve with. -/
inductive RpcValue where
  | accounts (addrs : List String)
  | hexString (s : String)
deriving Repr, DecidableEq

/-- `request` of the stateless mock provider (setupWallet.ts lines 20-25):
the two account methods resolve with the fixed one-element account list,
every other method resolves with null (`none`). -/
def requestSimple (method : String) : Option RpcValue :=
  if method = "eth_requestAccounts" ∨ method = "eth_accounts" then
    some (.accounts [TEST_WALLET_ADDRESS])
  else
    none

/-- The mutable state of the stateful mock provider: `selectedAddress` and
the `_walletCallbacks.accountsChanged` list.  Callbacks are identified by
a numeric id, matching the reference identity JavaScript `===` compares. -/
structure EthProviderState where
  selectedAddress : String
  accountsChanged : List Nat
deriving Repr, DecidableEq

/-- The provider state right after injection (setupWallet.ts lines 329-335):
empty selected address and no callbacks. -/
def initialEthState : EthProviderState :=
  { selectedAddress := "", accountsChanged := [] }

/-- `request` of the stateful mock provider (setupWallet.ts lines 336-350):
the two account methods set `selectedAddress` to the test address and
resolve with it; `eth_chainId` resolves with the hex string 0x1; every
other method resolves with null (`none`). -/
def requestStateful (method : String) (st : EthProviderState) :
    EthProviderState × Option RpcValue :=
  if method = "eth_requestAccounts" ∨ method = "eth_accounts" then
    let st2 := { st with selectedAddress := TEST_WALLET_ADDRESS }
    (st2, some (.accounts [st2.selectedAddress]))
  else if method = "eth_chainId" then
    (st, some (.hexString "0x1"))
  else
    (st, none)

/-- `on` of the stateful mock provider (setupWallet.ts lines 351-359):
for the accountsChanged event the callback is pushed onto the end of
`_walletCallbacks.accountsChanged`; other events are ignored. -/
def providerOn (event : String) (cb : Nat) (st : List Nat) : List Nat :=
  if event = "accountsChanged" then st ++ [cb] else st

/-- JavaScript `Array.prototype.indexOf`: the index of the first occurrence,
`none` when absent. -/
def jsIndexOf : List Nat → Nat → Option Nat
  | [], _ => none
  | a :: t, cb => if a = cb then some 0 else (jsIndexOf t cb).map (· + 1)

/-- `removeListener` of the stateful mock provider (setupWallet.ts lines
361-369): for the accountsChanged event, `indexOf` finds the callback and
`splice(index, 1)` removes that single entry; an absent callback or any
other event leaves the list unchanged. -/
def providerRemoveListener (event : String) (cb : Nat) (st : List Nat) :
    List Nat :=
  if event = "accountsChanged" then
    match jsIndexOf st cb with
    | some i => st.take i ++ st.drop (i + 1)
    | none => st
  else st

/-! ### `emit` (setupWallet.ts lines 371-383)

`emit` runs each registered callback under its own try/catch: a throwing
callback only produces a console.error log and the loop continues.  A
callback behaviour is a function from the event arguments to
`Except String Unit`; `.error` models a thrown exception. -/

/-- An observable event of an `emit` run: a callback was invoked, or the
error it threw was logged. -/
inductive EmitEvent where
  | invoked (cb : Nat)
  | loggedError (cb : Nat)
deriving Repr, DecidableEq

/-- One iteration of the `forEach` body of `emit`: `try { callback(args) }
catch (err) { console.error(...) }`. -/
def emitTryStep (beh : Nat → List String → Except String Unit)
    (args : List String) (cb : Nat) : List EmitEvent :=
  match beh cb args with
  | .ok _ => [.invoked cb]
  | .error _ => [.invoked cb, .loggedError cb]

/-- The `forEach` loop of `emit`, written in the exception monad so that an
uncaught throw would surface as `.error`: each callback runs under the
try/catch of the source (`.error` of a callback is turned into a logged
event, never propagated). -/
def emitLoop (beh : Nat → List String → Except String Unit)
    (args : List String) : List Nat → Except String (List EmitEvent)
  | [] => .ok []
  | cb :: rest =>
    match beh cb args with
    | .ok _ =>
      (emitLoop beh args rest).map (fun t => .invoked cb :: t)
    | .error _ =>
      (emitLoop beh args rest).map
        (fun t => .invoked cb :: .loggedError cb :: t)

/-- `emit` of the stateful mock provider: the accountsChanged callbacks are
run in registration order through `emitLoop`; other events do nothing. -/
def providerEmit (event : String) (cbs : List Nat)
    (beh : Nat → List String → Except String Unit) (args : List String) :
    Except String (List EmitEvent) :=
  if event = "accountsChanged" then emitLoop beh args cbs
  else .ok []

/-- The trace `emit` is expected to leave: every callback tried in
registration order. -/
def emitExpectedTrace (cbs : List Nat)
    (beh : Nat → List String → Except String Unit) (args : List String) :
    List EmitEvent :=
  (cbs.map (emitTryStep beh args)).flatten

/-- The callbacks a trace records as invoked, in order. -/
def invokedList (t : List EmitEvent) : List Nat :=
  t.filterMap fun e =>
    match e with
    | .invoked cb => some cb
    | .loggedError _ => none

/-- Whether a callback behaviour throws on the given arguments. -/
def throwsOn (beh : Nat → List String → Except String Unit) (cb : Nat)
    (args : List String) : Bool :=
  match beh cb args with
  | .ok _ => false
  | .error _ => true

/-! ## Page model and interaction traces

Page-object operations are embedded as pure functions from a static
model of the page under test to the list of interactions they perform.
`PageModel.closed` is `page.isClosed()`; `visible sel` is whether
`page.locator(sel).first()` is visible; `textContent sel` is its text;
`elementCount sel` is `locator(sel).all().length`; `active sel` is the
active/selected class check of `verifyDepositWithdraw`;
`screenshotFails` is whether `page.screenshot` throws. -/

/-- A static model of the browser page a test operation drives. -/
structure PageModel where
  closed : Bool
  visible : String → Bool
  textContent : String → Option String
  elementCount : String → Nat
  active : String → Bool
  screenshotFails : Bool

/-- One interaction a page-object operation performs on the page. -/
inductive PageAction where
  | navigate (url : String)
  | click (selector : String)
  | waitMs (ms : Nat)
  | waitForLoad
  | screenshot (name : String)
  | log (msg : String)
deriving Repr, DecidableEq

/-- `VaultDetailPage.isPageAvailable` (VaultDetailPage.ts lines 16-24):
`!this.page.isClosed()`. -/
def isPageAvailable (p : PageModel) : Bool :=
  !p.closed

/-- Whether a trace touches the page at all: `true` when every entry is a
console log. -/
def onlyLogs (t : List PageAction) : Bool :=
  t.all fun a =>
    match a with
    | .log _ => true
    | _ => false

/-- The selectors a trace clicks, in order. -/
def clickedSelectors (t : List PageAction) : List String :=
  t.filterMap fun a =>
    match a with
    | .click sel => some sel
    | _ => none

/-- How many clicks a trace performs. -/
def countClicks (t : List PageAction) : Nat :=
  (clickedSelectors t).length

/-- Every click of the trace is immediately followed by a wait. -/
def eachClickFollowedByWait : List PageAction → Bool
  | [] => true
  | .click _ :: rest =>
    match rest with
    | .waitMs _ :: rest2 => eachClickFollowedByWait rest2
    | _ => false
  | _ :: rest => eachClickFollowedByWait rest

/-! ## Screenshot helper (screenshotHelper.ts)

Two versions of `takeScreenshot` exist.  The guarded one
(screenshotHelper.ts lines 27-49) checks `page.isClosed()` and wraps the
screenshot call in try/catch, so it resolves normally on every input.
The plain one (lines 84-96) appends a timestamp to the name and calls
`page.screenshot` with no guard and no catch, so a closed page or a
failing screenshot call rejects the promise. -/

/-- The guarded `takeScreenshot` (screenshotHelper.ts lines 27-49). -/
def takeScreenshotGuarded (p : PageModel) (name : String) :
    Except String (List PageAction) :=
  if p.closed then
    .ok [.log ("Cannot take screenshot " ++ name ++ ": Page is already closed")]
  else if p.screenshotFails then
    .ok [.log ("Failed to take screenshot " ++ name)]
  else
    .ok [.screenshot name, .log ("Screenshot saved: " ++ name ++ ".png")]

/-- The unguarded `takeScreenshot` (screenshotHelper.ts lines 84-96); `ts`
is the `formatDate()` timestamp appended to the file name. -/
def takeScreenshotPlain (p : PageModel) (name ts : String) :
    Except String (List PageAction) :=
  if p.closed then
    .error "page is closed"
  else if p.screenshotFails then
    .error "screenshot failed"
  else
    .ok [.screenshot (name ++ "-" ++ ts),
         .log ("Screenshot saved: " ++ name ++ "-" ++ ts ++ ".png")]

/-- The trace the guarded `takeScreenshot` leaves; it never rejects, so the
trace is total. -/
def screenshotTrace (p : PageModel) (name : String) : List PageAction :=
  match takeScreenshotGuarded p name with
  | .ok t => t
  | .error _ => []

/-! ## VaultListPage (src/unnamed/part_006)

Three versions of the class exist.  `sortByAPR` of the first and third
copies (lines 70-96 and 707-733) clicks the first visible APR header
twice with a wait after each click; `sortByAPR` of the second copy
(lines 533-561) clicks it once. -/

/-- `VaultListPage.sortByAPR`, two-click versions (part_006 lines 70-96 and
707-733): the first selector of SELECTORS.APR_HEADER whose first match is
visible is clicked twice, waiting TIMEOUTS.ANIMATION after each click;
with no visible header only a log is produced; either way a screenshot is
taken at the end. -/
def sortByAPRTwoClick (p : PageModel) : List PageAction :=
  [.log "Attempting to sort vaults by APR in descending order..."] ++
  (match SELECTORS_APR_HEADER.find? p.visible with
   | some sel =>
     [.click sel, .waitMs TIMEOUTS_main.ANIMATION,
      .click sel, .waitMs TIMEOUTS_main.ANIMATION,
      .log "Clicked on APR header to sort in descending order"]
   | none =>
     [.log "APR header not found with standard selectors, continuing test"]) ++
  screenshotTrace p "vaults-sorted-by-apr"

/-- `VaultListPage.sortByAPR`, one-click version (part_006 lines 533-561):
the first selector of SELECTORS.APR_HEADER whose first match is visible
is clicked once, then the operation waits TIMEOUTS.ANIMATION and returns;
no screenshot is taken. -/
def sortByAPROneClick (p : PageModel) : List PageAction :=
  [.log "Sorting vault list by APR DESC..."] ++
  (match SELECTORS_APR_HEADER.find? p.visible with
   | some sel =>
     [.log ("Found APR header with selector: " ++ sel),
      .click sel, .waitMs TIMEOUTS_main.ANIMATION,
      .log "Sorted by APR DESC"]
   | none =>
     [.log "APR header not found, skipping sorting"])

/-- A possible failure of a test-level assertion (`expect`). -/
inductive TestFailure where
  | expectFailed (what : String)
deriving Repr, DecidableEq

/-- `VaultListPage.verifyBasicUIElements` (part_006 lines 32-47): the
header, Portfolio and Stats lookups only feed console logs; the method
contains no `expect`, so it resolves normally on every page state. -/
def verifyBasicUIElements (p : PageModel) :
    Except TestFailure (List PageAction) :=
  .ok [.log ("Header visible: " ++ toString (p.visible "header")),
       .log ("Portfolio section visible: " ++ toString (p.visible "text=Portfolio")),
       .log ("Stats section visible: " ++ toString (p.visible "text=Stats"))]

/-! ## VaultDetailPage (VaultDetailPage.ts, first version, lines 6-409)

Every public verification operation starts with the guard
`if (!await this.isPageAvailable()) { console.log(...); return; }` and
only then touches the page. -/

/-- SELECTORS.PERFORMANCE of constants.ts. -/
def SELECTORS_PERFORMANCE : List String :=
  [ "text=\"Historical Performance\""
  , "h2:has-text(\"Historical Performance\")"
  , "text=Performance"
  , "div:has-text(\"Historical Performance\")" ]

/-- SELECTORS.ASSETS of constants.ts. -/
def SELECTORS_ASSETS : List String :=
  [ "text=\"Assets\""
  , "h2:has-text(\"Assets\")"
  , "div:has-text(\"Assets\"):not(:has-text(\"Historical\"))" ]

/-- SELECTORS.STRATEGY of constants.ts. -/
def SELECTORS_STRATEGY : List String :=
  [ "text=\"Strategy Settings\""
  , "h2:has-text(\"Strategy\")"
  , "div:has-text(\"Strategy Settings\")" ]

/-- SELECTORS.CHART of constants.ts. -/
def SELECTORS_CHART : List String :=
  [ ".recharts-responsive-container"
  , "svg.recharts-surface"
  , "[class*=\"chart\"]"
  , "svg g path" ]

/-- SELECTORS.TIME_PERIODS of constants.ts. -/
def SELECTORS_TIME_PERIODS : List String := ["24h", "7D", "30D"]

/-- SELECTORS.DEPOSIT_BUTTON of constants.ts. -/
def SELECTORS_DEPOSIT_BUTTON : String :=
  "button:has-text(\"Deposit\"), button:has-text(\"+ Deposit\")"

/-- SELECTORS.WITHDRAW_BUTTON of constants.ts. -/
def SELECTORS_WITHDRAW_BUTTON : String := "button:has-text(\"Withdraw\")"

/-- The locator `verifyPerformanceChart` builds for one time period. -/
def periodSelector (period : String) : String :=
  "button:has-text(\"" ++ period ++ "\"), div:has-text(\"" ++ period ++
    "\"):not(:has-text(\"Historical\"))"

/-- The risk-warning selector list hard-coded in `verifyRiskWarning`
(VaultDetailPage.ts lines 372-376). -/
def riskWarningSelectors : List String :=
  [ "text=\"Understand the Risk\""
  , "h2:has-text(\"Understand the Risk\")"
  , "div:has-text(\"Understand the Risk\")" ]

/-- `VaultDetailPage.waitForDetailPageLoad` (VaultDetailPage.ts lines
29-61): guard, wait for network idle, race four key-element selectors
(success waits TIMEOUTS.RENDER, timeout logs and waits 5000 ms), then a
screenshot when the page is still open. -/
def waitForDetailPageLoad (p : PageModel) : List PageAction :=
  if !(isPageAvailable p) then
    [.log "Page is closed, skipping waitForDetailPageLoad"]
  else
    [.waitForLoad] ++
    (if p.visible "text=\"Historical Performance\"" ||
        p.visible "text=\"Assets\"" ||
        p.visible "text=\"Strategy Settings\"" ||
        p.visible "text=\"Deposit\"" then
      [.waitMs TIMEOUTS_main.RENDER,
       .log "Vault detail page loaded successfully"]
    else
      [.log "Warning: Timed out waiting for some detail page elements, but continuing test",
       .waitMs 5000]) ++
    (if isPageAvailable p then screenshotTrace p "vault-detail" else [])

/-- The per-period body of `verifyPerformanceChart` (VaultDetailPage.ts
lines 92-120): a visible period selector is clicked, the operation waits
TIMEOUTS.ANIMATION and takes a screenshot; an invisible one only logs. -/
def performancePeriodTrace (p : PageModel) (period : String) :
    List PageAction :=
  if p.visible (periodSelector period) then
    [.log ("Found " ++ period ++ " time period selector"),
     .click (periodSelector period),
     .waitMs TIMEOUTS_main.ANIMATION,
     .log ("Clicked on " ++ period ++ " time period")] ++
    screenshotTrace p ("performance-chart-" ++ period)
  else
    [.log (period ++ " time period selector not found or not visible")]

/-- `VaultDetailPage.verifyPerformanceChart` (VaultDetailPage.ts lines
66-147): guard, then find the Historical Performance section, exercise
the three time periods, and look for a chart component; everything after
the section lookup only logs when the section is missing. -/
def verifyPerformanceChart (p : PageModel) : List PageAction :=
  if !(isPageAvailable p) then
    [.log "Page is closed, skipping verifyPerformanceChart"]
  else
    [.log "Checking Historical Performance chart and time period selectors..."] ++
    (match SELECTORS_PERFORMANCE.find? p.visible with
     | some sel =>
       [.log ("Found Historical Performance section with selector: " ++ sel)] ++
       (SELECTORS_TIME_PERIODS.map (performancePeriodTrace p)).flatten ++
       (match SELECTORS_CHART.find? p.visible with
        | some csel =>
          [.log ("Found chart visualization with selector: " ++ csel),
           .log "Performance chart visualization verified"]
        | none => [.log "Performance chart visualization not found"])
     | none => [.log "Historical Performance section not found"])

/-- `VaultDetailPage.verifyAssetsSection` (VaultDetailPage.ts lines
152-198): guard, find the Assets section, count asset-image elements and
check the TVL text; every outcome is only logged. -/
def verifyAssetsSection (p : PageModel) : List PageAction :=
  if !(isPageAvailable p) then
    [.log "Page is closed, skipping verifyAssetsSection"]
  else
    [.log "Checking Assets section..."] ++
    (match SELECTORS_ASSETS.find? p.visible with
     | some sel =>
       [.log ("Found Assets section with selector: " ++ sel)] ++
       (if p.elementCount "img[alt*=\"WETH\"], img[alt*=\"ETH\"], img[alt*=\"token\"]" > 0 then
         [.log "Found asset items"]
       else
         [.log "No asset items found in Assets section"]) ++
       (if p.visible "text=TVL" then
         [.log "TVL value verified in Assets section"]
       else [])
     | none => [.log "Assets section not found"])

/-- `VaultDetailPage.verifyStrategySettings` (VaultDetailPage.ts lines
203-253): guard, find the Strategy Settings section, read the risk
indicator text and look for range settings; every outcome is only
logged. -/
def verifyStrategySettings (p : PageModel) : List PageAction :=
  if !(isPageAvailable p) then
    [.log "Page is closed, skipping verifyStrategySettings"]
  else
    [.log "Checking Strategy Settings section..."] ++
    (match SELECTORS_STRATEGY.find? p.visible with
     | some sel =>
       [.log ("Found Strategy Settings section with selector: " ++ sel)] ++
       (if p.visible "text=\"High Risk\", text=\"Medium Risk\", text=\"Low Risk\"" then
         [.log ("Risk level verified: " ++
           ((p.textContent "text=\"High Risk\", text=\"Medium Risk\", text=\"Low Risk\"").getD "Unknown"))]
       else
         [.log "Risk indicator not found"]) ++
       (if p.visible "text=Range Setting, text=[NARROW], text=[WIDE]" then
         [.log "Range settings verified in Strategy section"]
       else
         [.log "Range settings not found"])
     | none => [.log "Strategy Settings section not found"])

/-- The deposit half of `verifyDepositWithdraw` (VaultDetailPage.ts lines
267-324). -/
def depositTrace (p : PageModel) : List PageAction :=
  if p.visible SELECTORS_DEPOSIT_BUTTON then
    [.log "Deposit button found, testing deposit flow"] ++
    (if !(p.active SELECTORS_DEPOSIT_BUTTON) then
      [.click SELECTORS_DEPOSIT_BUTTON, .waitMs TIMEOUTS_main.ANIMATION,
       .log "Clicked on Deposit button"]
    else []) ++
    (if p.visible "input[type=\"number\"], input[placeholder*=\"Amount\"]" then
      [.log "Deposit amount input found"] ++
      (if p.visible "button:has-text(\"MAX\")" then
        [.log "MAX button found in deposit form"]
      else []) ++
      (if p.visible "text=\"slippage\", text=\"Slippage\"" then
        [.log "Slippage settings found in deposit form"]
      else [])
    else
      [.log "Deposit amount input not found"])
  else []

/-- The withdraw half of `verifyDepositWithdraw` (VaultDetailPage.ts lines
326-356). -/
def withdrawTrace (p : PageModel) : List PageAction :=
  if p.visible SELECTORS_WITHDRAW_BUTTON then
    [.log "Withdraw button found",
     .click SELECTORS_WITHDRAW_BUTTON, .waitMs TIMEOUTS_main.ANIMATION,
     .log "Clicked on Withdraw button"] ++
    (if p.visible "input[type=\"number\"], input[placeholder*=\"Amount\"]" then
      [.log "Withdraw amount input found"]
    else
      [.log "Withdraw amount input not found"])
  else
    [.log "Withdraw button not found"]

/-- `VaultDetailPage.verifyDepositWithdraw` (VaultDetailPage.ts lines
258-357): guard, then the deposit flow and the withdraw flow. -/
def verifyDepositWithdraw (p : PageModel) : List PageAction :=
  if !(isPageAvailable p) then
    [.log "Page is closed, skipping verifyDepositWithdraw"]
  else
    [.log "Checking Deposit/Withdraw functionality..."] ++
    depositTrace p ++ withdrawTrace p

/-- `VaultDetailPage.verifyRiskWarning` (VaultDetailPage.ts lines 362-408):
guard, find the Understand the Risk section and check its content; every
outcome is only logged. -/
def verifyRiskWarning (p : PageModel) : List PageAction :=
  if !(isPageAvailable p) then
    [.log "Page is closed, skipping verifyRiskWarning"]
  else
    [.log "Checking Understand the Risk section..."] ++
    (match riskWarningSelectors.find? p.visible with
     | some _ =>
       [.log "Risk warning section found"] ++
       (if p.visible "text=DYOR, text=managed by the Vault Owner" then
         [.log "Risk warning content verified"]
       else
         [.log "Risk warning content not found"])
     | none =>
       [.log "Risk warning section not found"])

/-! ## APR-sorting test segment (vaults.spec.ts lines 206-244)

After the APR header is clicked, the test collects the
`tr td:has-text("%")` cells.  With no such cell it falls back to
counting clickable vault rows and asserts at least one; otherwise it
asserts at least one APR cell, stores the trimmed text of the first up
to three non-null cells (logging each), and visits those vaults through
`processVaultDetails`, which performs no assertion (every check inside
it only logs, wrapped in try/catch). -/

/-- The observable outcome of the APR-sorting segment: the verdict of its
`expect` assertions and the APR texts it recorded and logged. -/
structure SortTestOutcome where
  passed : Bool
  aprLogged : List String
deriving Repr, DecidableEq

/-- The APR-sorting segment of the vault sorting test (vaults.spec.ts
lines 206-244): `aprCells` are the `textContent` results of the APR
cells in display order (null for an element with no text), and
`fallbackRows` is the row count of the fallback branch taken when no
cell contains a percent sign. -/
def aprSortSegment (aprCells : List (Option String)) (fallbackRows : Nat) :
    SortTestOutcome :=
  if aprCells.length = 0 then
    { passed := decide (1 ≤ fallbackRows), aprLogged := [] }
  else
    { passed := decide (1 ≤ aprCells.length)
      aprLogged := ((aprCells.take 3).filterMap id).map String.trim }

/-! ## Helper lemmas -/

/-- `providerOn` for the accountsChanged event pushes the callback. -/
theorem providerOn_accountsChanged (cb : Nat) (st : List Nat) :
    providerOn "accountsChanged" cb st = st ++ [cb] := by
  unfold providerOn
  rw [if_pos rfl]

/-- The `indexOf`/`splice` pair of `removeListener` removes exactly the
first occurrence, i.e. agrees with `List.erase`. -/
theorem spliceAt_eq_erase (cb : Nat) :
    ∀ st : List Nat,
      (match jsIndexOf st cb with
       | some i => st.take i ++ st.drop (i + 1)
       | none => st) = st.erase cb := by
  intro st
  induction st with
  | nil => rfl
  | cons a t ih =>
    by_cases hac : a = cb
    · subst hac
      simp [jsIndexOf, List.erase_cons]
    · rw [List.erase_cons, if_neg (by simpa using hac)]
      unfold jsIndexOf
      rw [if_neg hac]
      cases hj : jsIndexOf t cb with
      | none =>
        rw [hj] at ih
        simpa using ih
      | some i =>
        rw [hj] at ih
        simpa using ih

/-- `removeListener` for the accountsChanged event is `List.erase`. -/
theorem providerRemoveListener_eq_erase (cb : Nat) (st : List Nat) :
    providerRemoveListener "accountsChanged" cb st = st.erase cb := by
  unfold providerRemoveListener
  rw [if_pos rfl]
  exact spliceAt_eq_erase cb st

/-- The guarded screenshot helper never clicks. -/
theorem screenshotTrace_no_clicks (p : PageModel) (name : String) :
    clickedSelectors (screenshotTrace p name) = [] := by
  unfold screenshotTrace takeScreenshotGuarded
  by_cases hc : p.closed <;> by_cases hf : p.screenshotFails <;>
    simp [hc, hf, clickedSelectors]

/-- Every click of the guarded screenshot helper trace (there is none) is
followed by a wait. -/
theorem screenshotTrace_clickWait (p : PageModel) (name : String) :
    eachClickFollowedByWait (screenshotTrace p name) = true := by
  unfold screenshotTrace takeScreenshotGuarded
  by_cases hc : p.closed <;> by_cases hf : p.screenshotFails <;>
    simp [hc, hf, eachClickFollowedByWait]

/-- The expected trace splits at the head callback. -/
theorem emitExpectedTrace_cons (beh : Nat → List String → Except String Unit)
    (args : List String) (cb : Nat) (rest : List Nat) :
    emitExpectedTrace (cb :: rest) beh args =
      emitTryStep beh args cb ++ emitExpectedTrace rest beh args := by
  simp [emitExpectedTrace]

/-- `emit` over the accountsChanged callbacks resolves (never rejects) and
leaves exactly the expected trace. -/
theorem providerEmit_eq_expected
    (beh : Nat → List String → Except String Unit) (args : List String) :
    ∀ cbs : List Nat,
      providerEmit "accountsChanged" cbs beh args =
        .ok (emitExpectedTrace cbs beh args) := by
  have key : ∀ cbs : List Nat,
      emitLoop beh args cbs = .ok (emitExpectedTrace cbs beh args) := by
    intro cbs
    induction cbs with
    | nil => simp [emitLoop, emitExpectedTrace]
    | cons cb rest ih =>
      cases hb : beh cb args with
      | ok u =>
        rw [emitExpectedTrace_cons]
        simp [emitLoop, hb, ih, Except.map, emitTryStep]
      | error e =>
        rw [emitExpectedTrace_cons]
        simp [emitLoop, hb, ih, Except.map, emitTryStep]
  intro cbs
  unfold providerEmit
  rw [if_pos rfl]
  exact key cbs

/-- The expected `emit` trace invokes exactly the registered callbacks in
registration order. -/
theorem emitExpectedTrace_invoked
    (beh : Nat → List String → Except String Unit) (args : List String) :
    ∀ cbs : List Nat, invokedList (emitExpectedTrace cbs beh args) = cbs := by
  intro cbs
  induction cbs with
  | nil => rfl
  | cons cb rest ih =>
    rw [emitExpectedTrace_cons]
    cases hb : beh cb args with
    | ok u => simp [emitTryStep, invokedList, hb] at ih ⊢; exact ih
    | error e => simp [emitTryStep, invokedList, hb] at ih ⊢; exact ih

/-- A throwing callback gets its error logged in the expected `emit`
trace. -/
theorem emitExpectedTrace_logs
    (beh : Nat → List String → Except String Unit) (args : List String) :
    ∀ cbs : List Nat, ∀ cb ∈ cbs, throwsOn beh cb args = true →
      EmitEvent.loggedError cb ∈ emitExpectedTrace cbs beh args := by
  intro cbs
  induction cbs with
  | nil => intro cb h; simp at h
  | cons a rest ih =>
    intro cb hmem hthrow
    rw [emitExpectedTrace_cons]
    rcases List.mem_cons.mp hmem with hcb | hcb
    · subst hcb
      unfold throwsOn at hthrow
      cases hb : beh cb args with
      | ok u => rw [hb] at hthrow; simp at hthrow
      | error e =>
        apply List.mem_append_left
        simp [emitTryStep, hb]
    · exact List.mem_append_right _ (ih cb hcb hthrow)

/-! ## Concrete page states used as witnesses and counterexamples -/

/-- A page that has been closed. -/
def closedPage : PageModel :=
  { closed := true, visible := fun _ => false, textContent := fun _ => none
    elementCount := fun _ => 0, active := fun _ => false
    screenshotFails := false }

/-- An open page on which nothing is visible and screenshots succeed. -/
def openPage : PageModel :=
  { closed := false, visible := fun _ => false, textContent := fun _ => none
    elementCount := fun _ => 0, active := fun _ => false
    screenshotFails := false }

/-- An open page whose only visible element matches the last APR-header
selector. -/
def aprVisiblePage : PageModel :=
  { closed := false, visible := fun s => s == "text=APR"
    textContent := fun _ => none, elementCount := fun _ => 0
    active := fun _ => false, screenshotFails := false }

/-- An open page on which the screenshot call itself fails. -/
def failingShotPage : PageModel :=
  { closed := false, visible := fun _ => false, textContent := fun _ => none
    elementCount := fun _ => 0, active := fun _ => false
    screenshotFails := true }

/-- A callback environment in which callback 5 throws and every other
callback returns normally. -/
def behWithThrow : Nat → List String → Except String Unit :=
  fun cb _ => if cb = 5 then .error "boom" else .ok ()

/-! ## Claims -/

/-- C1 counterexample: the stateful mock provider injected by
`setupWalletConnection` (setupWallet.ts lines 336-349) answers the method
`eth_chainId`, which is neither of the two account methods, with the
non-null value 0x1 — so not exactly two RPC method names get a non-null
answer from that provider. -/
theorem requestStateful_chainId_not_null :
    (requestStateful "eth_chainId" initialEthState).2 = some (.hexString "0x1") ∧
    ¬ (requestStateful "eth_chainId" initialEthState).2 = none ∧
    "eth_chainId" ≠ "eth_requestAccounts" ∧
    "eth_chainId" ≠ "eth_accounts" := by
  refine ⟨rfl, ?_, by decide, by decide⟩
  intro h
  simp [requestStateful, initialEthState] at h

/-- C1 (amended): the stateless mock provider answers exactly the two
account methods with the fixed one-element account list and every other
method with null; the stateful provider additionally answers
`eth_chainId` with 0x1, so there exactly three method names get a
non-null answer and every other method gets null. -/
theorem mock_request_method_table (method : String) (st : EthProviderState) :
    requestSimple "eth_requestAccounts" = some (.accounts [TEST_WALLET_ADDRESS]) ∧
    requestSimple "eth_accounts" = some (.accounts [TEST_WALLET_ADDRESS]) ∧
    (method ≠ "eth_requestAccounts" → method ≠ "eth_accounts" →
      requestSimple method = none) ∧
    (requestStateful "eth_requestAccounts" st).2 =
      some (.accounts [TEST_WALLET_ADDRESS]) ∧
    (requestStateful "eth_accounts" st).2 =
      some (.accounts [TEST_WALLET_ADDRESS]) ∧
    (requestStateful "eth_chainId" st).2 = some (.hexString "0x1") ∧
    (method ≠ "eth_requestAccounts" → method ≠ "eth_accounts" →
      method ≠ "eth_chainId" → (requestStateful method st).2 = none) := by
  refine ⟨?_, ?_, ?_, ?_, ?_, ?_, ?_⟩
  · unfold requestSimple
    rw [if_pos (Or.inl rfl)]
  · unfold requestSimple
    rw [if_pos (Or.inr rfl)]
  · intro h1 h2
    unfold requestSimple
    rw [if_neg (fun h => h.elim h1 h2)]
  · unfold requestStateful
    rw [if_pos (Or.inl rfl)]
  · unfold requestStateful
    rw [if_pos (Or.inr rfl)]
  · unfold requestStateful
    rw [if_neg (by decide), if_pos rfl]
  · intro h1 h2 h3
    unfold requestStateful
    rw [if_neg (fun h => h.elim h1 h2), if_neg h3]

/-- C1 witness: at the concrete method `personal_sign`, which is none of
the special-cased names, both providers answer null. -/
theorem mock_request_method_table_witness :
    requestSimple "personal_sign" = none ∧
    (requestStateful "personal_sign" initialEthState).2 = none :=
  ⟨(mock_request_method_table "personal_sign" initialEthState).2.2.1
      (by decide) (by decide),
   (mock_request_method_table "personal_sign" initialEthState).2.2.2.2.2.2
      (by decide) (by decide) (by decide)⟩

/-- C2 counterexample: the `sortByAPR` version at part_006 lines 533-561,
run on a page whose APR header matches the selector text=APR, clicks the
header exactly once, not twice. -/
theorem sortByAPROneClick_single_click :
    SELECTORS_APR_HEADER.find? aprVisiblePage.visible = some "text=APR" ∧
    countClicks (sortByAPROneClick aprVisiblePage) = 1 ∧
    ¬ countClicks (sortByAPROneClick aprVisiblePage) = 2 := by
  decide

/-- C2 (amended): the two-click `sortByAPR` versions (part_006 lines 70-96
and 707-733) click the first visible matching APR header exactly twice,
waiting after each click, whenever some APR-header selector matches a
visible element; the version at lines 533-561 clicks it exactly once. -/
theorem sortByAPRTwoClick_clicks_twice (p : PageModel) (sel : String)
    (h : SELECTORS_APR_HEADER.find? p.visible = some sel) :
    clickedSelectors (sortByAPRTwoClick p) = [sel, sel] ∧
    countClicks (sortByAPRTwoClick p) = 2 ∧
    eachClickFollowedByWait (sortByAPRTwoClick p) = true ∧
    clickedSelectors (sortByAPROneClick p) = [sel] := by
  have hs := screenshotTrace_no_clicks p "vaults-sorted-by-apr"
  have hw := screenshotTrace_clickWait p "vaults-sorted-by-apr"
  have h1 : clickedSelectors (sortByAPRTwoClick p) = [sel, sel] := by
    unfold sortByAPRTwoClick
    rw [h]
    simp only [clickedSelectors] at hs ⊢
    simp [hs]
  refine ⟨h1, ?_, ?_, ?_⟩
  · unfold countClicks
    rw [h1]
    rfl
  · unfold sortByAPRTwoClick
    rw [h]
    simp [eachClickFollowedByWait, hw]
  · unfold sortByAPROneClick
    rw [h]
    simp [clickedSelectors]

/-- C2 witness: on the concrete page whose APR header matches text=APR,
the two-click version clicks that selector twice with a wait after each
click. -/
theorem sortByAPRTwoClick_clicks_twice_witness :
    clickedSelectors (sortByAPRTwoClick aprVisiblePage) =
      ["text=APR", "text=APR"] ∧
    countClicks (sortByAPRTwoClick aprVisiblePage) = 2 ∧
    eachClickFollowedByWait (sortByAPRTwoClick aprVisiblePage) = true ∧
    clickedSelectors (sortByAPROneClick aprVisiblePage) = ["text=APR"] :=
  sortByAPRTwoClick_clicks_twice aprVisiblePage "text=APR" (by decide)

/-- C3: every public VaultDetailPage verification operation
(waitForDetailPageLoad, verifyPerformanceChart, verifyAssetsSection,
verifyStrategySettings, verifyDepositWithdraw, verifyRiskWarning), run on
a page that is closed when it starts, returns normally with a trace that
contains only console logs — no navigation, click, wait, or
screenshot. -/
theorem detailPage_skips_when_closed (p : PageModel) (h : p.closed = true) :
    onlyLogs (waitForDetailPageLoad p) = true ∧
    onlyLogs (verifyPerformanceChart p) = true ∧
    onlyLogs (verifyAssetsSection p) = true ∧
    onlyLogs (verifyStrategySettings p) = true ∧
    onlyLogs (verifyDepositWithdraw p) = true ∧
    onlyLogs (verifyRiskWarning p) = true := by
  refine ⟨?_, ?_, ?_, ?_, ?_, ?_⟩ <;>
    simp [waitForDetailPageLoad, verifyPerformanceChart, verifyAssetsSection,
      verifyStrategySettings, verifyDepositWithdraw, verifyRiskWarning,
      isPageAvailable, h, onlyLogs]

/-- C3 witness: on the concrete closed page, all six operations leave a
log-only trace. -/
theorem detailPage_skips_when_closed_witness :
    onlyLogs (waitForDetailPageLoad closedPage) = true ∧
    onlyLogs (verifyPerformanceChart closedPage) = true ∧
    onlyLogs (verifyAssetsSection closedPage) = true ∧
    onlyLogs (verifyStrategySettings closedPage) = true ∧
    onlyLogs (verifyDepositWithdraw closedPage) = true ∧
    onlyLogs (verifyRiskWarning closedPage) = true :=
  detailPage_skips_when_closed closedPage rfl

/-- C4 counterexample: the `takeScreenshot` version at
screenshotHelper.ts lines 84-96 has no guard and no try/catch, so on a
page whose screenshot call fails it rejects with an error instead of
warning and returning normally. -/
theorem takeScreenshotPlain_propagates :
    takeScreenshotPlain failingShotPage "vaults-page-initial" "120000" =
      .error "screenshot failed" ∧
    (takeScreenshotPlain failingShotPage "vaults-page-initial" "120000").isOk
      = false := by
  refine ⟨rfl, rfl⟩

/-- C4 (amended): the guarded `takeScreenshot` (screenshotHelper.ts lines
27-49) never propagates an error — closed page and failing screenshot
call both end in a warning and a normal return; the unguarded version at
lines 84-96 resolves only when the page is open and the screenshot call
succeeds, and propagates the failure otherwise. -/
theorem takeScreenshotGuarded_never_fails (p : PageModel) (name ts : String) :
    (takeScreenshotGuarded p name).isOk = true ∧
    (p.closed = false → p.screenshotFails = false →
      (takeScreenshotPlain p name ts).isOk = true) ∧
    (p.screenshotFails = true →
      (takeScreenshotPlain p name ts).isOk = false) ∧
    (p.closed = true →
      (takeScreenshotPlain p name ts).isOk = false) := by
  by_cases hc : p.closed <;> by_cases hf : p.screenshotFails <;>
    simp [takeScreenshotGuarded, takeScreenshotPlain, hc, hf, Except.isOk,
      Except.toBool]

/-- C4 witness: on the concrete open page with a working screenshot call,
the guarded helper and the unguarded helper both resolve; the hypotheses
of the amended claim are discharged at that page. -/
theorem takeScreenshotGuarded_never_fails_witness :
    (takeScreenshotGuarded openPage "vault-detail").isOk = true ∧
    (takeScreenshotPlain openPage "vault-detail" "093000").isOk = true :=
  ⟨(takeScreenshotGuarded_never_fails openPage "vault-detail" "093000").1,
   (takeScreenshotGuarded_never_fails openPage "vault-detail" "093000").2.1
      rfl rfl⟩

/-- C6: the duplicated configuration and constants files assign different
values to the same named tunables — playwright.config.ts uses a 60000 ms
test timeout with 2 retries while the duplicate config uses 90000 ms with
1 retry, and constants.ts sets TIMEOUTS.ANIMATION = 5000 and
TIMEOUTS.RENDER = 10000 while the duplicate constants file sets 1000 and
2000. -/
theorem duplicated_configs_disagree :
    playwrightConfigMain.timeout = 60000 ∧
    playwrightConfigMain.retries = 2 ∧
    playwrightConfigDup.timeout = 90000 ∧
    playwrightConfigDup.retries = 1 ∧
    TIMEOUTS_main.ANIMATION = 5000 ∧
    TIMEOUTS_main.RENDER = 10000 ∧
    TIMEOUTS_dup.ANIMATION = 1000 ∧
    TIMEOUTS_dup.RENDER = 2000 ∧
    playwrightConfigMain.timeout ≠ playwrightConfigDup.timeout ∧
    playwrightConfigMain.retries ≠ playwrightConfigDup.retries ∧
    TIMEOUTS_main.ANIMATION ≠ TIMEOUTS_dup.ANIMATION ∧
    TIMEOUTS_main.RENDER ≠ TIMEOUTS_dup.RENDER := by
  decide

/-- C7: `VaultListPage.verifyBasicUIElements` resolves normally on every
page state — whatever the visibility of the header, Portfolio and Stats
elements, it only logs their visibility and performs no assertion and no
other page interaction. -/
theorem verifyBasicUIElements_never_fails (p : PageModel) :
    verifyBasicUIElements p =
      .ok [.log ("Header visible: " ++ toString (p.visible "header")),
           .log ("Portfolio section visible: " ++
             toString (p.visible "text=Portfolio")),
           .log ("Stats section visible: " ++
             toString (p.visible "text=Stats"))] ∧
    (verifyBasicUIElements p).isOk = true ∧
    (match verifyBasicUIElements p with
     | .ok t => onlyLogs t
     | .error _ => false) = true := by
  refine ⟨rfl, rfl, rfl⟩

/-- C8: the shortened wallet address computed by the wallet helpers (first
six characters, an ellipsis, last four characters of
TEST_WALLET_ADDRESS) is exactly the text 0x1822...89ff that is hard-coded
inside the SELECTORS.WALLET_ADDRESS selector list, in its button
selector (index 2) and its span selector (index 4). -/
theorem shortenedAddress_matches_selectors :
    shortenedAddress = hardCodedShortAddress ∧
    SELECTORS_WALLET_ADDRESS.getD 2 "" =
      "button:has-text(\"" ++ hardCodedShortAddress ++ "\")" ∧
    SELECTORS_WALLET_ADDRESS.getD 4 "" =
      "span:has-text(\"" ++ hardCodedShortAddress ++ "\")" ∧
    strContainsSub (SELECTORS_WALLET_ADDRESS.getD 2 "") shortenedAddress
      = true ∧
    strContainsSub (SELECTORS_WALLET_ADDRESS.getD 4 "") shortenedAddress
      = true := by
  refine ⟨by decide, rfl, rfl, by decide, by decide⟩

/-- C5: the APR-sorting segment of the vault sorting test reaches the same
pass/fail verdict on any two displayed APR cell lists that are
permutations of each other (its only assertion is on the cell count); it
records and logs the trimmed texts of the first up to three non-null APR
cells, and a strictly increasing — hence not non-increasing — APR
sequence still passes, so no ordering is asserted. -/
theorem aprSortSegment_order_insensitive
    (cells1 cells2 : List (Option String)) (rows : Nat)
    (h : cells1.Perm cells2) :
    (aprSortSegment cells1 rows).passed = (aprSortSegment cells2 rows).passed ∧
    (aprSortSegment cells1 rows).aprLogged =
      ((cells1.take 3).filterMap id).map String.trim ∧
    (aprSortSegment [some "1%", some "2%", some "3%"] 0).passed = true := by
  have hl := h.length_eq
  refine ⟨?_, ?_, by decide⟩
  · unfold aprSortSegment
    by_cases h0 : cells1.length = 0
    · rw [if_pos h0, if_pos (hl ▸ h0)]
    · rw [if_neg h0, if_neg (hl ▸ h0)]
      rw [hl]
  · unfold aprSortSegment
    by_cases h0 : cells1.length = 0
    · have he : cells1 = [] := List.length_eq_zero.mp h0
      subst he
      simp
    · rw [if_neg h0]

/-- C5 witness: two concrete runs whose APR cells hold the same values in
opposite orders get the same verdict. -/
theorem aprSortSegment_order_insensitive_witness :
    (aprSortSegment [some "3%", some "5%"] 0).passed =
      (aprSortSegment [some "5%", some "3%"] 0).passed :=
  (aprSortSegment_order_insensitive [some "3%", some "5%"]
    [some "5%", some "3%"] 0 (List.Perm.swap (some "5%") (some "3%") [])).1

/-- C9 counterexample: with callback 0 already registered ahead of
callback 1, `on` followed by `removeListener` for callback 0 yields the
list 1, 0 — the first occurrence was removed, not the newly pushed one —
which differs from the previous contents 0, 1. -/
theorem removeListener_after_on_reorders :
    providerOn "accountsChanged" 0 [0, 1] = [0, 1, 0] ∧
    providerRemoveListener "accountsChanged" 0
      (providerOn "accountsChanged" 0 [0, 1]) = [1, 0] ∧
    ¬ providerRemoveListener "accountsChanged" 0
      (providerOn "accountsChanged" 0 [0, 1]) = [0, 1] := by
  decide

/-- C9 (amended): when the callback is not already registered,
on('accountsChanged', cb) followed by removeListener('accountsChanged',
cb) restores the accountsChanged callback list exactly; in general
removeListener removes exactly the first occurrence of cb (it is
`List.erase`); removeListener with an unregistered callback, or with an
event other than accountsChanged, leaves the list unchanged. -/
theorem removeListener_erases_first (st : List Nat) (cb : Nat) (ev : String) :
    (cb ∉ st →
      providerRemoveListener "accountsChanged" cb
        (providerOn "accountsChanged" cb st) = st) ∧
    providerRemoveListener "accountsChanged" cb st = st.erase cb ∧
    (cb ∉ st → providerRemoveListener "accountsChanged" cb st = st) ∧
    (ev ≠ "accountsChanged" →
      providerRemoveListener ev cb st = st ∧ providerOn ev cb st = st) := by
  refine ⟨?_, providerRemoveListener_eq_erase cb st, ?_, ?_⟩
  · intro hmem
    rw [providerOn_accountsChanged, providerRemoveListener_eq_erase]
    rw [List.erase_append_right _ (by simpa using hmem)]
    simp
  · intro hmem
    rw [providerRemoveListener_eq_erase]
    exact List.erase_of_not_mem hmem
  · intro hev
    constructor
    · unfold providerRemoveListener
      rw [if_neg hev]
    · unfold providerOn
      rw [if_neg hev]

/-- C9 witness: with callbacks 1 and 2 registered, on then removeListener
of the fresh callback 0 restores the list, removeListener of the
unregistered callback 0 leaves it unchanged, and removeListener for the
event chainChanged leaves it unchanged. -/
theorem removeListener_erases_first_witness :
    providerRemoveListener "accountsChanged" 0
      (providerOn "accountsChanged" 0 [1, 2]) = [1, 2] ∧
    providerRemoveListener "accountsChanged" 0 [1, 2] = [1, 2] ∧
    providerRemoveListener "chainChanged" 0 [1, 2] = [1, 2] :=
  ⟨(removeListener_erases_first [1, 2] 0 "chainChanged").1 (by decide),
   (removeListener_erases_first [1, 2] 0 "chainChanged").2.2.1 (by decide),
   ((removeListener_erases_first [1, 2] 0 "chainChanged").2.2.2
      (by decide)).1⟩

/-- C10: emit('accountsChanged', args) resolves — it never propagates an
exception thrown by a callback — and its trace invokes every callback
registered in the accountsChanged list, in registration order; every
callback whose behaviour throws on the given arguments has its error
logged in the trace while the remaining callbacks are still invoked. -/
theorem emit_invokes_all_never_throws (cbs : List Nat)
    (beh : Nat → List String → Except String Unit) (args : List String) :
    providerEmit "accountsChanged" cbs beh args =
      .ok (emitExpectedTrace cbs beh args) ∧
    invokedList (emitExpectedTrace cbs beh args) = cbs ∧
    (∀ cb ∈ cbs, throwsOn beh cb args = true →
      EmitEvent.loggedError cb ∈ emitExpectedTrace cbs beh args) :=
  ⟨providerEmit_eq_expected beh args cbs,
   emitExpectedTrace_invoked beh args cbs,
   emitExpectedTrace_logs beh args cbs⟩

/-- C10 witness: with callbacks 3 and 5 registered and callback 5
throwing, emit still resolves, both callbacks are invoked in order, and
the thrown error is logged. -/
theorem emit_invokes_all_never_throws_witness :
    providerEmit "accountsChanged" [3, 5] behWithThrow ["0xabc"] =
      .ok (emitExpectedTrace [3, 5] behWithThrow ["0xabc"]) ∧
    invokedList (emitExpectedTrace [3, 5] behWithThrow ["0xabc"]) = [3, 5] ∧
    EmitEvent.loggedError 5 ∈ emitExpectedTrace [3, 5] behWithThrow ["0xabc"] :=
  ⟨(emit_invokes_all_never_throws [3, 5] behWithThrow ["0xabc"]).1,
   (emit_invokes_all_never_throws [3, 5] behWithThrow ["0xabc"]).2.1,
   (emit_invokes_all_never_throws [3, 5] behWithThrow ["0xabc"]).2.2 5
     (by decide) (by decide)⟩
